import Mathlib

/-!
Shallow embedding of the banking system's transaction execution and approval
core: the account state policy (`patterns/state/account_state.py`), the domain
`Account` and `Transaction` entities (`domain/account/account.py`,
`domain/transaction/transaction.py`), the approval chain
(`patterns/chain/approval_handler.py` with the thresholds of `config.py`),
the observer subject (`patterns/observer/observer.py`), and the
database-backed orchestrator `BankingFacadeDB`
(`patterns/facade/banking_facade_db.py` over `database/repository.py`),
plus the legacy in-memory `BankingFacade` withdraw path
(`patterns/facade/banking_facade.py`).

Python floats are modelled as rationals; repository writes commit
immediately (as each repository method calls `db.session.commit()`), so the
`Bank` record is threaded through every operation and is also returned on
the error paths, mirroring which writes had already been committed when an
exception propagates.
-/

namespace Banking

/-- `domain/roles/role.py` -/
inductive Role where
  | customer
  | employee
  | admin
deriving DecidableEq, Repr

/-- `Role.value` strings of `domain/roles/role.py` -/
def Role.value : Role → String
  | .customer => "customer"
  | .employee => "employee"
  | .admin => "admin"

/-- `user_role.value.title()` as used by `EmployeeApprovalHandler.handle` -/
def Role.valueTitle : Role → String
  | .customer => "Customer"
  | .employee => "Employee"
  | .admin => "Admin"

/-- `domain/transaction/transaction.py` `TransactionType` -/
inductive TransactionType where
  | deposit
  | withdrawal
  | transfer
deriving DecidableEq, Repr

/-- `domain/transaction/transaction.py` `TransactionStatus` -/
inductive TransactionStatus where
  | pending
  | approved
  | rejected
  | completed
deriving DecidableEq, Repr

/-- The four account states of `patterns/state/account_state.py` -/
inductive AccountStateKind where
  | active
  | frozen
  | suspended
  | closed
deriving DecidableEq, Repr

/-- The exception kinds of `utils/exceptions.py` that the core raises -/
inductive BankError where
  | invalidTransaction
  | unauthorizedAccess
  | accountNotFound
  | insufficientFunds
  | frozenAccount
  | invalidStateTransition
deriving DecidableEq, Repr

/-- `deposit` answers of the state classes in `patterns/state/account_state.py` -/
def stateAllowsDeposit : AccountStateKind → Bool
  | .active => true
  | .frozen => true
  | .suspended => true
  | .closed => false

/-- `withdraw` answers of the state classes in `patterns/state/account_state.py` -/
def stateAllowsWithdraw : AccountStateKind → Bool
  | .active => true
  | .frozen => false
  | .suspended => false
  | .closed => false

/-- `transfer` answers of the state classes in `patterns/state/account_state.py` -/
def stateAllowsTransfer : AccountStateKind → Bool
  | .active => true
  | .frozen => false
  | .suspended => false
  | .closed => false

/-- `get_state_name` of the state classes in `patterns/state/account_state.py` -/
def stateName : AccountStateKind → String
  | .active => "Active"
  | .frozen => "Frozen"
  | .suspended => "Suspended"
  | .closed => "Closed"

/-- `domain/account/account.py` `Account` (the fields the core reads) -/
structure Account where
  accountId : String
  ownerId : String
  balance : ℚ
  state : AccountStateKind
  isClosed : Bool
deriving DecidableEq, Repr

/-- `Account.set_state`: refuses any non-closed state once `is_closed` -/
def Account.set_state (a : Account) (newState : AccountStateKind) :
    Except BankError Account :=
  if a.isClosed ∧ newState ≠ .closed then .error .invalidStateTransition
  else .ok { a with state := newState }

/-- `Account.deposit`: state gate, then the `amount <= 0` silent failure -/
def Account.deposit (a : Account) (amount : ℚ) : Bool × Account :=
  if stateAllowsDeposit a.state = false then (false, a)
  else if amount ≤ 0 then (false, a)
  else (true, { a with balance := a.balance + amount })

/-- `Account.withdraw`: state gate (raising `FrozenAccountError` exactly for
the `"Frozen"` state name), `amount <= 0` silent failure, then the
`InsufficientFundsError` balance check -/
def Account.withdraw (a : Account) (amount : ℚ) :
    Except BankError (Bool × Account) :=
  if stateAllowsWithdraw a.state = false then
    if stateName a.state = "Frozen" then .error .frozenAccount
    else .ok (false, a)
  else if amount ≤ 0 then .ok (false, a)
  else if a.balance < amount then .error .insufficientFunds
  else .ok (true, { a with balance := a.balance - amount })

/-- `Account.transfer`: the outgoing-transfer permission/balance check -/
def Account.transfer (a : Account) (amount : ℚ) : Except BankError Bool :=
  if stateAllowsTransfer a.state = false then
    if stateName a.state = "Frozen" then .error .frozenAccount
    else .ok false
  else if amount ≤ 0 then .ok false
  else if a.balance < amount then .error .insufficientFunds
  else .ok true

/-- `Account.close`: `set_state(ClosedState())` then `is_closed = True` -/
def Account.close (a : Account) : Except BankError Account :=
  match a.set_state .closed with
  | .error e => .error e
  | .ok a1 => .ok { a1 with isClosed := true }

/-- `domain/transaction/transaction.py` `Transaction` (the fields the core
reads; timestamps and description are never branched on) -/
structure Transaction where
  transactionId : String
  transactionType : TransactionType
  accountId : String
  targetAccountId : Option String
  amount : ℚ
  status : TransactionStatus
  approvedBy : Option String
deriving DecidableEq, Repr

/-- `Transaction.approve` -/
def Transaction.approve (t : Transaction) (approver : String) : Transaction :=
  { t with status := .approved, approvedBy := some approver }

/-- `Transaction.reject` -/
def Transaction.reject (t : Transaction) : Transaction :=
  { t with status := .rejected }

/-- `Transaction.complete` -/
def Transaction.complete (t : Transaction) : Transaction :=
  { t with status := .completed }

/-- `config.AUTO_APPROVE_THRESHOLD` -/
def AUTO_APPROVE_THRESHOLD : ℚ := 25000

/-- `config.EMPLOYEE_APPROVE_THRESHOLD` -/
def EMPLOYEE_APPROVE_THRESHOLD : ℚ := 75000

/-- A handler of `patterns/chain/approval_handler.py`: takes the transaction
and acting role, returns the `Optional[bool]` decision and the (possibly
approved) transaction -/
abbrev HandlerFun := Transaction → Role → Option Bool × Transaction

/-- `ApprovalHandler._pass_to_next` -/
def passToNext (next : Option HandlerFun) (t : Transaction) (r : Role) :
    Option Bool × Transaction :=
  match next with
  | some h => h t r
  | none => (none, t)

/-- `AutoApprovalHandler.handle` -/
def autoApprovalHandler (next : Option HandlerFun) : HandlerFun := fun t r =>
  if t.amount ≤ AUTO_APPROVE_THRESHOLD then (some true, t.approve "System")
  else passToNext next t r

/-- `EmployeeApprovalHandler.handle` -/
def employeeApprovalHandler (next : Option HandlerFun) : HandlerFun := fun t r =>
  if AUTO_APPROVE_THRESHOLD < t.amount ∧ t.amount ≤ EMPLOYEE_APPROVE_THRESHOLD then
    if r = .employee ∨ r = .admin then (some true, t.approve r.valueTitle)
    else (none, t)
  else passToNext next t r

/-- `AdminApprovalHandler.handle` -/
def adminApprovalHandler (next : Option HandlerFun) : HandlerFun := fun t r =>
  if EMPLOYEE_APPROVE_THRESHOLD < t.amount then
    if r = .admin then (some true, t.approve "Admin")
    else (none, t)
  else passToNext next t r

/-- `ApprovalChain.create_chain`: auto → employee → admin -/
def createChain : HandlerFun :=
  autoApprovalHandler (some (employeeApprovalHandler (some (adminApprovalHandler none))))

/-- The chain as one three-way case split on the amount (helper). -/
theorem createChain_eq (t : Transaction) (r : Role) :
    createChain t r =
      if t.amount ≤ 25000 then (some true, t.approve "System")
      else if t.amount ≤ 75000 then
        (if r = .employee ∨ r = .admin then (some true, t.approve r.valueTitle)
         else (none, t))
      else
        (if r = .admin then (some true, t.approve "Admin")
         else (none, t)) := by
  unfold createChain autoApprovalHandler employeeApprovalHandler adminApprovalHandler
    passToNext AUTO_APPROVE_THRESHOLD EMPLOYEE_APPROVE_THRESHOLD
  by_cases h1 : t.amount ≤ 25000
  · simp [h1]
  · by_cases h2 : t.amount ≤ 75000
    · simp [h1, h2, not_le.mp h1]
    · simp [h1, h2, not_le.mp h1, not_le.mp h2]

/-- Whether the chain reaches a positive decision, as a function of amount
and acting role (helper used to state tier hypotheses). -/
def chainApproves (amount : ℚ) (r : Role) : Bool :=
  if amount ≤ 25000 then true
  else if amount ≤ 75000 then
    match r with
    | .employee => true
    | .admin => true
    | .customer => false
  else
    match r with
    | .admin => true
    | _ => false

/-- When `chainApproves` is false the chain leaves the transaction untouched
and yields no decision (helper). -/
theorem createChain_of_not_approves (t : Transaction) (r : Role)
    (h : chainApproves t.amount r = false) : createChain t r = (none, t) := by
  rw [createChain_eq]
  unfold chainApproves at h
  by_cases h1 : t.amount ≤ 25000
  · simp [h1] at h
  · by_cases h2 : t.amount ≤ 75000
    · simp [h1, h2] at h
      cases r with
      | customer => simp [h1, h2]
      | employee => simp at h
      | admin => simp at h
    · simp [h1, h2] at h
      cases r with
      | customer => simp [h1, h2]
      | employee => simp [h1, h2]
      | admin => simp at h

/-- When `chainApproves` is true the chain approves, stamping some approver
(helper). -/
theorem createChain_of_approves (t : Transaction) (r : Role)
    (h : chainApproves t.amount r = true) :
    ∃ s, createChain t r = (some true, t.approve s) := by
  rw [createChain_eq]
  unfold chainApproves at h
  by_cases h1 : t.amount ≤ 25000
  · exact ⟨"System", by simp [h1]⟩
  · by_cases h2 : t.amount ≤ 75000
    · simp [h1, h2] at h
      cases r with
      | customer => simp at h
      | employee => exact ⟨Role.valueTitle .employee, by simp [h1, h2]⟩
      | admin => exact ⟨Role.valueTitle .admin, by simp [h1, h2]⟩
    · simp [h1, h2] at h
      cases r with
      | customer => simp at h
      | employee => simp at h
      | admin => exact ⟨"Admin", by simp [h1, h2]⟩

/-- Association-list lookup for the persisted tables. -/
def alookup {α : Type} : List (String × α) → String → Option α
  | [], _ => none
  | (k1, v) :: rest, k => if k1 = k then some v else alookup rest k

/-- Association-list pointwise update at a key. -/
def aupdate {α : Type} : List (String × α) → String → (α → α) → List (String × α)
  | [], _, _ => []
  | (k1, v) :: rest, k, f => (k1, if k1 = k then f v else v) :: aupdate rest k f

theorem alookup_aupdate_self {α : Type} (l : List (String × α)) (k : String)
    (f : α → α) : alookup (aupdate l k f) k = (alookup l k).map f := by
  induction l with
  | nil => rfl
  | cons p rest ih =>
    obtain ⟨k1, v⟩ := p
    by_cases h : k1 = k
    · simp [aupdate, alookup, h]
    · simp [aupdate, alookup, h, ih]

theorem alookup_aupdate_other {α : Type} (l : List (String × α)) (k j : String)
    (f : α → α) (hne : k ≠ j) : alookup (aupdate l k f) j = alookup l j := by
  induction l with
  | nil => rfl
  | cons p rest ih =>
    obtain ⟨k1, v⟩ := p
    by_cases hj : k1 = j
    · have hk : k1 ≠ k := fun hk => hne (hk ▸ hj ▸ rfl)
      simp [aupdate, alookup, hj, hk]
      exact fun h => absurd h.symm hne
    · simp [aupdate, alookup, hj, ih]

/-- The persisted store behind `BankingFacadeDB`: the `accounts` and
`transactions` tables, and the facade's `_current_user_id` attribute (set by
`set_current_user`, absent — `None` — by default). -/
structure Bank where
  accounts : List (String × Account) := []
  transactions : List (String × Transaction) := []
  currentUserId : Option String := none
deriving DecidableEq, Repr

/-- `BankingFacadeDB.set_current_user` -/
def Bank.set_current_user (bank : Bank) (userId : String) : Bank :=
  { bank with currentUserId := some userId }

/-- `AccountRepository.get`: raises `AccountNotFoundError` when absent -/
def AccountRepository.get (bank : Bank) (accountId : String) :
    Except BankError Account :=
  match alookup bank.accounts accountId with
  | some a => .ok a
  | none => .error .accountNotFound

/-- `AccountRepository.update_balance` (commits immediately) -/
def AccountRepository.update_balance (bank : Bank) (accountId : String)
    (newBalance : ℚ) : Bank :=
  let accounts1 := aupdate bank.accounts accountId
    (fun a => { a with balance := newBalance })
  { bank with accounts := accounts1 }

/-- `AccountRepository.update_state`: sets `is_closed` only when the new
state is `CLOSED`, and never clears it (commits immediately) -/
def AccountRepository.update_state (bank : Bank) (accountId : String)
    (newState : AccountStateKind) : Bank :=
  let accounts1 := aupdate bank.accounts accountId
    (fun a => { a with
        state := newState,
        isClosed := if newState = .closed then true else a.isClosed })
  { bank with accounts := accounts1 }

/-- `TransactionRepository.create`: inserts the record with `PENDING` status -/
def TransactionRepository.create (bank : Bank) (txn : Transaction) : Bank :=
  { bank with transactions := (txn.transactionId, txn) :: bank.transactions }

/-- `TransactionRepository.update_status`: sets the status, and `approved_by`
only when a truthy approver is passed (commits immediately) -/
def TransactionRepository.update_status (bank : Bank) (transactionId : String)
    (newStatus : TransactionStatus) (approvedBy : Option String) : Bank :=
  let transactions1 := aupdate bank.transactions transactionId
    (fun t => { t with
        status := newStatus,
        approvedBy := match approvedBy with
          | some a => some a
          | none => t.approvedBy })
  { bank with transactions := transactions1 }

/-- The domain events the facade pushes through `Subject.notifyObserver`,
with the payload fields the claims are about. -/
inductive Event where
  | transactionCompleted (transactionId : String)
  | transactionApproved (transactionId : String)
  | balanceChanged (accountId : String) (newBalance : ℚ)
  | accountStateChanged (accountId : String)
deriving DecidableEq, Repr

/-- Outcome of one facade operation over store `σ`: the store after every
committed write (also on the exception paths), the events emitted before a
raise, and the returned value or the propagated exception. -/
structure OpResult (σ α : Type) where
  bank : σ
  events : List Event
  result : Except BankError α

/-- Observed balance of a persisted account (helper). -/
def Bank.balanceOf (bank : Bank) (accountId : String) : Option ℚ :=
  (alookup bank.accounts accountId).map Account.balance

/-- Observed persisted status of a transaction record (helper). -/
def Bank.statusOf (bank : Bank) (transactionId : String) :
    Option TransactionStatus :=
  (alookup bank.transactions transactionId).map Transaction.status

/-- `BankingFacadeDB.deposit`: no authorization check, create `PENDING`
record, run the chain, and on a positive decision execute the domain
deposit; only a successful domain deposit persists the balance, marks the
record `COMPLETED` and emits `TRANSACTION_COMPLETED` then `BALANCE_CHANGED`.
The fresh uuid is passed in as `transactionId`. -/
def BankingFacadeDB.deposit (bank : Bank) (transactionId accountId : String)
    (amount : ℚ) (userRole : Role) : OpResult Bank Transaction :=
  match AccountRepository.get bank accountId with
  | .error e => ⟨bank, [], .error e⟩
  | .ok account =>
    let txn0 : Transaction :=
      { transactionId := transactionId, transactionType := .deposit,
        accountId := accountId, targetAccountId := none, amount := amount,
        status := .pending, approvedBy := none }
    let bank1 := TransactionRepository.create bank txn0
    let res := createChain txn0 userRole
    if res.1 = some true then
      let dep := account.deposit amount
      if dep.1 then
        let bank2 := AccountRepository.update_balance bank1 accountId dep.2.balance
        let bank3 := TransactionRepository.update_status bank2 transactionId
          .completed (some "System")
        ⟨bank3,
         [.transactionCompleted transactionId,
          .balanceChanged accountId dep.2.balance],
         .ok res.2.complete⟩
      else ⟨bank1, [], .ok res.2⟩
    else ⟨bank1, [], .ok res.2⟩

/-- The ownership/authentication gate shared by `BankingFacadeDB.withdraw`
and `BankingFacadeDB.transfer`: account-credential callers must act on the
account they authenticated with, Customers must own the account, and
Employee/Admin bypass the check. -/
def withdrawAuthFails (accountId : String) (account : Account)
    (userRole : Role) (currentUser : Option String)
    (authenticatedAccountId : Option String) : Bool :=
  match authenticatedAccountId with
  | some authId => accountId != authId
  | none => userRole == Role.customer && some account.ownerId != currentUser

/-- `user_id or self._current_user_id` of the legacy user-based path -/
def effectiveUserId (bank : Bank) (userId : Option String) : Option String :=
  match userId with
  | some u => some u
  | none => bank.currentUserId

/-- `BankingFacadeDB.withdraw`: authorization gate, create `PENDING` record,
run the chain; on a positive decision execute the domain withdraw. A
successful domain withdraw persists the balance and emits
`TRANSACTION_APPROVED` then `BALANCE_CHANGED` but never updates the
persisted status (the comment in the source: status remains APPROVED after
execution). `InsufficientFundsError`/`FrozenAccountError` mark the record
`REJECTED` and re-raise. -/
def BankingFacadeDB.withdraw (bank : Bank) (transactionId accountId : String)
    (amount : ℚ) (userRole : Role) (userId : Option String)
    (authenticatedAccountId : Option String) : OpResult Bank Transaction :=
  match AccountRepository.get bank accountId with
  | .error e => ⟨bank, [], .error e⟩
  | .ok account =>
    if withdrawAuthFails accountId account userRole
        (effectiveUserId bank userId) authenticatedAccountId then
      ⟨bank, [], .error .unauthorizedAccess⟩
    else
      let txn0 : Transaction :=
        { transactionId := transactionId, transactionType := .withdrawal,
          accountId := accountId, targetAccountId := none, amount := amount,
          status := .pending, approvedBy := none }
      let bank1 := TransactionRepository.create bank txn0
      let res := createChain txn0 userRole
      if res.1 = some true then
        match account.withdraw amount with
        | .error e =>
          ⟨TransactionRepository.update_status bank1 transactionId .rejected none,
           [], .error e⟩
        | .ok (true, account1) =>
          ⟨AccountRepository.update_balance bank1 accountId account1.balance,
           [.transactionApproved transactionId,
            .balanceChanged accountId account1.balance],
           .ok res.2⟩
        | .ok (false, _) => ⟨bank1, [], .ok res.2⟩
      else ⟨bank1, [], .ok res.2⟩

/-- `BankingFacadeDB.transfer`: both accounts are fetched (raising
`AccountNotFoundError`), the source passes the same authorization gate as
withdraw, a `PENDING` record is created and the chain runs. On a positive
decision: `from_account.transfer` validation (a `False` answer raises
`InsufficientFundsError`), `from_account.withdraw`, then
`to_account.deposit` whose boolean answer the source discards; both balances
are persisted, the record is marked `COMPLETED` and the events
`TRANSACTION_COMPLETED`, source `BALANCE_CHANGED`, target `BALANCE_CHANGED`
are emitted in that order. Raised validation errors mark the record
`REJECTED` and propagate. -/
def BankingFacadeDB.transfer (bank : Bank)
    (transactionId fromAccountId toAccountId : String) (amount : ℚ)
    (userRole : Role) (userId : Option String)
    (authenticatedAccountId : Option String) : OpResult Bank Transaction :=
  match AccountRepository.get bank fromAccountId with
  | .error e => ⟨bank, [], .error e⟩
  | .ok fromAccount =>
    match AccountRepository.get bank toAccountId with
    | .error e => ⟨bank, [], .error e⟩
    | .ok toAccount =>
      if withdrawAuthFails fromAccountId fromAccount userRole
          (effectiveUserId bank userId) authenticatedAccountId then
        ⟨bank, [], .error .unauthorizedAccess⟩
      else
        let txn0 : Transaction :=
          { transactionId := transactionId, transactionType := .transfer,
            accountId := fromAccountId, targetAccountId := some toAccountId,
            amount := amount, status := .pending, approvedBy := none }
        let bank1 := TransactionRepository.create bank txn0
        let res := createChain txn0 userRole
        if res.1 = some true then
          match fromAccount.transfer amount with
          | .error e =>
            ⟨TransactionRepository.update_status bank1 transactionId .rejected none,
             [], .error e⟩
          | .ok false =>
            ⟨TransactionRepository.update_status bank1 transactionId .rejected none,
             [], .error .insufficientFunds⟩
          | .ok true =>
            match fromAccount.withdraw amount with
            | .error e =>
              ⟨TransactionRepository.update_status bank1 transactionId .rejected none,
               [], .error e⟩
            | .ok (_, fromAccount1) =>
              let dep := toAccount.deposit amount
              let bank2 := AccountRepository.update_balance bank1 fromAccountId
                fromAccount1.balance
              let bank3 := AccountRepository.update_balance bank2 toAccountId
                dep.2.balance
              let bank4 := TransactionRepository.update_status bank3 transactionId
                .completed (some "System")
              ⟨bank4,
               [.transactionCompleted transactionId,
                .balanceChanged fromAccountId fromAccount1.balance,
                .balanceChanged toAccountId dep.2.balance],
               .ok res.2.complete⟩
        else ⟨bank1, [], .ok res.2⟩

/-- `BankingFacadeDB.approve_transaction`: only `PENDING` records; the
amount-vs-role permission guards use the literals 75000 and 25000; then the
underlying operation executes (discarding the domain booleans, exactly as
the source does), the record is marked `APPROVED` then `COMPLETED`, and a
`TRANSACTION_APPROVED` event is emitted. Execution errors mark the record
`REJECTED` (stamping the approver) and propagate. -/
def BankingFacadeDB.approve_transaction (bank : Bank) (transactionId : String)
    (approverRole : Role) (approverId : String) : OpResult Bank Bool :=
  match alookup bank.transactions transactionId with
  | none => ⟨bank, [], .error .invalidTransaction⟩
  | some txn =>
    if txn.status ≠ .pending then ⟨bank, [], .error .invalidTransaction⟩
    else if 75000 < txn.amount ∧ approverRole ≠ .admin then
      ⟨bank, [], .error .unauthorizedAccess⟩
    else if 25000 < txn.amount ∧ ¬(approverRole = .employee ∨ approverRole = .admin) then
      ⟨bank, [], .error .unauthorizedAccess⟩
    else
      match AccountRepository.get bank txn.accountId with
      | .error e => ⟨bank, [], .error e⟩
      | .ok account =>
        let exec : Except BankError Bank :=
          match txn.transactionType with
          | .deposit =>
            let dep := account.deposit txn.amount
            .ok (AccountRepository.update_balance bank txn.accountId dep.2.balance)
          | .withdrawal =>
            match account.withdraw txn.amount with
            | .error e => .error e
            | .ok (_, account1) =>
              .ok (AccountRepository.update_balance bank txn.accountId account1.balance)
          | .transfer =>
            match txn.targetAccountId with
            | none => .error .accountNotFound
            | some targetId =>
              match AccountRepository.get bank targetId with
              | .error e => .error e
              | .ok target =>
                match account.withdraw txn.amount with
                | .error e => .error e
                | .ok (_, account1) =>
                  let dep := target.deposit txn.amount
                  .ok (AccountRepository.update_balance
                        (AccountRepository.update_balance bank txn.accountId
                          account1.balance)
                        targetId dep.2.balance)
        match exec with
        | .error e =>
          ⟨TransactionRepository.update_status bank transactionId .rejected
            (some approverId), [], .error e⟩
        | .ok bank1 =>
          let bank2 := TransactionRepository.update_status bank1 transactionId
            .approved (some approverId)
          let bank3 := TransactionRepository.update_status bank2 transactionId
            .completed (some approverId)
          ⟨bank3, [.transactionApproved transactionId], .ok true⟩

/-- `BankingFacadeDB.deny_transaction`: only `PENDING` records, the same
permission guards as approval, then the record is marked `REJECTED` with the
approver stamped and a `TRANSACTION_APPROVED` event is emitted; no balance
is touched. -/
def BankingFacadeDB.deny_transaction (bank : Bank) (transactionId : String)
    (approverRole : Role) (approverId : String) : OpResult Bank Bool :=
  match alookup bank.transactions transactionId with
  | none => ⟨bank, [], .error .invalidTransaction⟩
  | some txn =>
    if txn.status ≠ .pending then ⟨bank, [], .error .invalidTransaction⟩
    else if 75000 < txn.amount ∧ approverRole ≠ .admin then
      ⟨bank, [], .error .unauthorizedAccess⟩
    else if 25000 < txn.amount ∧ ¬(approverRole = .employee ∨ approverRole = .admin) then
      ⟨bank, [], .error .unauthorizedAccess⟩
    else
      ⟨TransactionRepository.update_status bank transactionId .rejected
        (some approverId),
       [.transactionApproved transactionId], .ok true⟩

/-- `BankingFacade.withdraw` of the legacy in-memory facade
(`patterns/facade/banking_facade.py`): ownership check against the global
`_current_user_id` only, the transaction object is stored in the dict before
the chain runs and is aliased, so the dict always holds the final mutated
object; a successful domain withdraw calls `transaction.complete()` and
emits `TRANSACTION_COMPLETED` then `BALANCE_CHANGED`; only
`InsufficientFundsError` is caught (rejecting the transaction) — any other
raise leaves the stored object as the chain left it. -/
def BankingFacade.withdraw (bank : Bank) (transactionId accountId : String)
    (amount : ℚ) (userRole : Role) : OpResult Bank Transaction :=
  match alookup bank.accounts accountId with
  | none => ⟨bank, [], .error .accountNotFound⟩
  | some account =>
    if userRole == Role.customer && some account.ownerId != bank.currentUserId then
      ⟨bank, [], .error .unauthorizedAccess⟩
    else
      let txn0 : Transaction :=
        { transactionId := transactionId, transactionType := .withdrawal,
          accountId := accountId, targetAccountId := none, amount := amount,
          status := .pending, approvedBy := none }
      let res := createChain txn0 userRole
      if res.1 = some true then
        match account.withdraw amount with
        | .error .insufficientFunds =>
          ⟨{ bank with transactions := (transactionId, res.2.reject) :: bank.transactions },
           [], .error .insufficientFunds⟩
        | .error e =>
          ⟨{ bank with transactions := (transactionId, res.2) :: bank.transactions },
           [], .error e⟩
        | .ok (true, account1) =>
          let accounts1 := aupdate bank.accounts accountId (fun _ => account1)
          let bank1 : Bank := { bank with
            accounts := accounts1,
            transactions := (transactionId, res.2.complete) :: bank.transactions }
          ⟨bank1,
           [.transactionCompleted transactionId,
            .balanceChanged accountId account1.balance],
           .ok res.2.complete⟩
        | .ok (false, _) =>
          ⟨{ bank with transactions := (transactionId, res.2) :: bank.transactions },
           [], .ok res.2⟩
      else
        ⟨{ bank with transactions := (transactionId, res.2) :: bank.transactions },
         [], .ok res.2⟩

/-- An observer as the notification loop sees it: an identity and whether
its `update` raises on the event being emitted (the listener body itself is
external to the core). -/
structure ObserverSpec where
  observerId : Nat
  fails : Bool
deriving DecidableEq, Repr

/-- `Subject.addObserver`: appends unless already subscribed. -/
def Subject.addObserver (observers : List ObserverSpec) (o : ObserverSpec) :
    List ObserverSpec :=
  if o ∈ observers then observers else observers ++ [o]

/-- `Subject.notifyObserver`: a plain `for` loop over `self._observers` with
no exception handling — each observer's `update` is invoked in registration
order; an observer that raises has been invoked, the loop stops there and
the exception propagates to the caller. Returns the identities invoked, in
order, and whether an exception escaped. -/
def Subject.notifyObserver : List ObserverSpec → List Nat × Bool
  | [] => ([], false)
  | o :: rest =>
    if o.fails then ([o.observerId], true)
    else
      let r := Subject.notifyObserver rest
      (o.observerId :: r.1, r.2)

/-- The observers the loop would invoke: every observer up to and including
the first failing one (helper, stated from the spec's reading of the loop). -/
def invokedUntilFailure : List ObserverSpec → List Nat
  | [] => []
  | o :: rest =>
    if o.fails then [o.observerId] else o.observerId :: invokedUntilFailure rest

/-- The account-level operations a caller can attempt after a close
(`domain/account/account.py`); each leaves the object unchanged when it
fails or raises. -/
inductive AccountOp where
  | set_state (newState : AccountStateKind)
  | close
  | deposit (amount : ℚ)
  | withdraw (amount : ℚ)

/-- The account object after attempting one operation (a raised exception
leaves the object as it was, since every mutation in the source happens
after its guard). -/
def Account.runOp (a : Account) : AccountOp → Account
  | .set_state s =>
    match a.set_state s with
    | .ok a1 => a1
    | .error _ => a
  | .close =>
    match a.close with
    | .ok a1 => a1
    | .error _ => a
  | .deposit amount => (a.deposit amount).2
  | .withdraw amount =>
    match a.withdraw amount with
    | .ok (_, a1) => a1
    | .error _ => a

/-- The account object after a sequence of attempted operations. -/
def Account.runOps (a : Account) (ops : List AccountOp) : Account :=
  ops.foldl Account.runOp a

/-- A deposit of a non-positive amount is a silent no-op in every state
(helper). -/
theorem Account.deposit_nonpos (a : Account) (amount : ℚ) (h : amount ≤ 0) :
    a.deposit amount = (false, a) := by
  unfold Account.deposit
  by_cases hs : stateAllowsDeposit a.state = false <;> simp [hs, h]

/-- A positive deposit in a state whose policy allows deposits credits the
balance (helper). -/
theorem Account.deposit_allowed_pos (a : Account)
    (hs : stateAllowsDeposit a.state = true) (amount : ℚ) (hpos : 0 < amount) :
    a.deposit amount = (true, { a with balance := a.balance + amount }) := by
  unfold Account.deposit
  simp [hs, not_le.mpr hpos]

/-- Withdrawing from a frozen account raises `FrozenAccountError` for every
amount (helper). -/
theorem Account.withdraw_frozen (a : Account) (h : a.state = .frozen)
    (amount : ℚ) : a.withdraw amount = .error .frozenAccount := by
  unfold Account.withdraw
  simp [h, stateAllowsWithdraw, stateName]

/-- A fundable positive withdrawal on an active account debits the balance
(helper). -/
theorem Account.withdraw_active_ok (a : Account) (h : a.state = .active)
    (amount : ℚ) (hpos : 0 < amount) (hbal : amount ≤ a.balance) :
    a.withdraw amount = .ok (true, { a with balance := a.balance - amount }) := by
  unfold Account.withdraw
  simp [h, stateAllowsWithdraw, not_le.mpr hpos, not_lt.mpr hbal]

/-- The outgoing-transfer validation passes on a funded active account
(helper). -/
theorem Account.transfer_active_ok (a : Account) (h : a.state = .active)
    (amount : ℚ) (hpos : 0 < amount) (hbal : amount ≤ a.balance) :
    a.transfer amount = .ok true := by
  unfold Account.transfer
  simp [h, stateAllowsTransfer, not_le.mpr hpos, not_lt.mpr hbal]

/-- `Account.withdraw` only ever raises `InsufficientFundsError` or
`FrozenAccountError` (helper). -/
theorem Account.withdraw_error_kind (a : Account) (amount : ℚ) (e : BankError)
    (h : a.withdraw amount = .error e) :
    e = .insufficientFunds ∨ e = .frozenAccount := by
  unfold Account.withdraw at h
  split_ifs at h <;> simp_all

/-- The ownership gate passes when the caller is the account owner via the
user-based path (helper). -/
theorem withdrawAuthFails_owner (accountId : String) (a : Account) (r : Role) :
    withdrawAuthFails accountId a r (some a.ownerId) none = false := by
  unfold withdrawAuthFails
  simp

/-- C1: the chain decides in exactly one tier: any amount up to 25000 is
approved immediately with approver "System" whatever the acting role; an
amount in (25000, 75000] is approved exactly for an Employee or Admin actor
(approver = the role name) and otherwise left Pending with no approver; an
amount above 75000 is approved exactly for an Admin actor (approver
"Admin") and otherwise left Pending with no approver; threshold amounts
fall in the lower tier (the ≤ comparisons below). -/
theorem approval_chain_tiers (t : Transaction) (r : Role)
    (hs : t.status = .pending) (ha : t.approvedBy = none) :
    (t.amount ≤ 25000 → createChain t r = (some true, t.approve "System")) ∧
    (25000 < t.amount → t.amount ≤ 75000 →
      ((r = .employee ∨ r = .admin) →
         createChain t r = (some true, t.approve r.valueTitle)) ∧
      (¬(r = .employee ∨ r = .admin) →
         createChain t r = (none, t) ∧
         (createChain t r).2.status = .pending ∧
         (createChain t r).2.approvedBy = none)) ∧
    (75000 < t.amount →
      (r = .admin → createChain t r = (some true, t.approve "Admin")) ∧
      (r ≠ .admin →
         createChain t r = (none, t) ∧
         (createChain t r).2.status = .pending ∧
         (createChain t r).2.approvedBy = none)) := by
  have hc := createChain_eq t r
  refine ⟨fun h1 => ?_, fun h1 h2 => ⟨fun hr => ?_, fun hr => ?_⟩,
    fun h1 => ⟨fun hr => ?_, fun hr => ?_⟩⟩
  · rw [hc]
    simp [h1]
  · rw [hc]
    simp [not_le.mpr h1, h2, hr]
  · rw [hc]
    simp [not_le.mpr h1, h2, hr, hs, ha]
  · rw [hc]
    simp [not_le.mpr h1, not_le.mpr (lt_trans (show (25000:ℚ) < 75000 by norm_num) h1), hr]
  · rw [hc]
    simp [not_le.mpr h1, not_le.mpr (lt_trans (show (25000:ℚ) < 75000 by norm_num) h1), hr, hs, ha]

/-- Witness for C1: a 100-unit transaction by a Customer is auto-approved
with approver "System". -/
theorem approval_chain_tiers_witness :
    createChain
      { transactionId := "TXN_1", transactionType := .deposit,
        accountId := "ACC_1", targetAccountId := none, amount := 100,
        status := .pending, approvedBy := none } .customer
      = (some true,
         Transaction.approve
           { transactionId := "TXN_1", transactionType := .deposit,
             accountId := "ACC_1", targetAccountId := none, amount := 100,
             status := .pending, approvedBy := none } "System") :=
  (approval_chain_tiers
    { transactionId := "TXN_1", transactionType := .deposit,
      accountId := "ACC_1", targetAccountId := none, amount := 100,
      status := .pending, approvedBy := none } .customer rfl rfl).1
    (by norm_num)

/-- One attempted operation on a closed account leaves it closed with the
flag set (helper). -/
theorem closed_runOp (a : Account) (h1 : a.state = .closed)
    (h2 : a.isClosed = true) (op : AccountOp) :
    (a.runOp op).state = .closed ∧ (a.runOp op).isClosed = true := by
  cases op with
  | set_state s =>
    by_cases hs : s = .closed
    · subst hs
      simp [Account.runOp, Account.set_state, h1, h2]
    · simp [Account.runOp, Account.set_state, h1, h2, hs]
  | close =>
    simp [Account.runOp, Account.close, Account.set_state, h1, h2]
  | deposit m =>
    simp [Account.runOp, Account.deposit, h1, stateAllowsDeposit, h2]
  | withdraw m =>
    simp [Account.runOp, Account.withdraw, h1, stateAllowsWithdraw, stateName,
      h2, show ("Closed" : String) ≠ "Frozen" from by decide]

/-- C7: once an account is closed (closed flag set, state Closed), no
sequence of account operations can ever change that: the state and the flag
stay Closed, and any attempt to set a non-Closed state fails with
`InvalidStateTransitionError`. The account-level methods take no caller
role, so the enforcement is independent of it. -/
theorem closed_account_forever_closed (a : Account) (h1 : a.state = .closed)
    (h2 : a.isClosed = true) (ops : List AccountOp) :
    (a.runOps ops).state = .closed ∧ (a.runOps ops).isClosed = true ∧
    ∀ s, s ≠ .closed →
      (a.runOps ops).set_state s = .error .invalidStateTransition := by
  induction ops generalizing a with
  | nil =>
    refine ⟨h1, h2, fun s hs => ?_⟩
    simp [Account.runOps, Account.set_state, h2, hs]
  | cons op rest ih =>
    have h := closed_runOp a h1 h2 op
    have hrec := ih (a.runOp op) h.1 h.2
    simpa [Account.runOps, List.foldl] using hrec

/-- Witness for C7: a concrete closed account survives a re-open attempt, a
deposit and a withdrawal, staying Closed, and a later re-open attempt still
fails with `InvalidStateTransitionError`. -/
theorem closed_account_forever_closed_witness :
    (Account.runOps ⟨"ACC_1", "U1", 100, .closed, true⟩
      [.set_state .active, .deposit 5, .withdraw 3]).state = .closed ∧
    (Account.runOps ⟨"ACC_1", "U1", 100, .closed, true⟩
      [.set_state .active, .deposit 5, .withdraw 3]).isClosed = true ∧
    (Account.runOps ⟨"ACC_1", "U1", 100, .closed, true⟩
      [.set_state .active, .deposit 5, .withdraw 3]).set_state .active
      = .error .invalidStateTransition := by
  have h := closed_account_forever_closed ⟨"ACC_1", "U1", 100, .closed, true⟩
    rfl rfl [.set_state .active, .deposit 5, .withdraw 3]
  exact ⟨h.1, h.2.1, h.2.2 .active (by decide)⟩

/-- C9 counterexample: with a failing listener registered first and a
healthy listener second, emission invokes only the failing listener — the
second never runs — and the exception escapes to the caller, so a failing
listener does prevent other listeners from running and its error is
propagated. -/
theorem observer_failure_counterexample :
    Subject.notifyObserver [⟨0, true⟩, ⟨1, false⟩] = ([0], true) ∧
    (Subject.notifyObserver [⟨0, true⟩, ⟨1, false⟩]).1 ≠ [0, 1] := by
  exact ⟨rfl, by decide⟩

/-- C9 (amended): emission is synchronous and in registration order, but
with no exception handling in the loop: the listeners invoked are exactly
those up to and including the first failing one, and an exception escapes
to the caller exactly when some invoked listener fails (when no listener
fails, all of them run and nothing is propagated). -/
theorem notifyObserver_characterization (os : List ObserverSpec) :
    Subject.notifyObserver os
      = (invokedUntilFailure os, os.any ObserverSpec.fails) := by
  induction os with
  | nil => rfl
  | cons o rest ih =>
    by_cases h : o.fails
    · simp [Subject.notifyObserver, invokedUntilFailure, h, List.any_cons]
    · simp [Subject.notifyObserver, invokedUntilFailure, h, List.any_cons, ih]

/-- C5: approving or denying a transaction whose persisted status is
Completed or Rejected fails with `InvalidTransactionError` and returns the
store untouched — every account balance and every transaction status is
unchanged, and no event is emitted. -/
theorem terminal_transaction_immutable (bank : Bank) (transactionId : String)
    (txn : Transaction) (role : Role) (approverId : String)
    (hlook : alookup bank.transactions transactionId = some txn)
    (hterm : txn.status = .completed ∨ txn.status = .rejected) :
    BankingFacadeDB.approve_transaction bank transactionId role approverId
      = ⟨bank, [], .error .invalidTransaction⟩ ∧
    BankingFacadeDB.deny_transaction bank transactionId role approverId
      = ⟨bank, [], .error .invalidTransaction⟩ := by
  have hnp : txn.status ≠ .pending := by
    rcases hterm with h | h <;> simp [h]
  constructor
  · unfold BankingFacadeDB.approve_transaction
    rw [hlook]
    simp [hnp]
  · unfold BankingFacadeDB.deny_transaction
    rw [hlook]
    simp [hnp]

/-- A store with one active funded account and one already-completed
transaction record. -/
def bankC5 : Bank :=
  { accounts := [("ACC_1", ⟨"ACC_1", "U1", 100, .active, false⟩)],
    transactions :=
      [("TXN_1",
        { transactionId := "TXN_1", transactionType := .deposit,
          accountId := "ACC_1", targetAccountId := none, amount := 10,
          status := .completed, approvedBy := some "System" })] }

/-- Witness for C5: the concrete completed transaction can be neither
approved nor denied, and the store is returned unchanged. -/
theorem terminal_transaction_immutable_witness :
    BankingFacadeDB.approve_transaction bankC5 "TXN_1" .admin "U9"
      = ⟨bankC5, [], .error .invalidTransaction⟩ ∧
    BankingFacadeDB.deny_transaction bankC5 "TXN_1" .admin "U9"
      = ⟨bankC5, [], .error .invalidTransaction⟩ :=
  terminal_transaction_immutable bankC5 "TXN_1"
    { transactionId := "TXN_1", transactionType := .deposit,
      accountId := "ACC_1", targetAccountId := none, amount := 10,
      status := .completed, approvedBy := some "System" }
    .admin "U9" rfl (Or.inl rfl)

/-- C6: a deposit request with a non-positive amount never raises: the
operation returns normally, the account balance is unchanged, the persisted
transaction record stays Pending, no event is emitted, and the returned
domain transaction is the approved-but-unexecuted object — in particular it
is never marked Completed. -/
theorem nonpositive_deposit_noop (bank : Bank) (transactionId accountId : String)
    (acct : Account) (amount : ℚ) (userRole : Role)
    (hacct : alookup bank.accounts accountId = some acct)
    (hamt : amount ≤ 0) :
    (∃ txn, (BankingFacadeDB.deposit bank transactionId accountId amount userRole).result
        = .ok txn ∧ txn.status = .approved ∧ txn.status ≠ .completed) ∧
    Bank.balanceOf (BankingFacadeDB.deposit bank transactionId accountId amount userRole).bank
      accountId = some acct.balance ∧
    Bank.statusOf (BankingFacadeDB.deposit bank transactionId accountId amount userRole).bank
      transactionId = some .pending ∧
    (BankingFacadeDB.deposit bank transactionId accountId amount userRole).events = [] := by
  have h25 : amount ≤ 25000 := le_trans hamt (by norm_num)
  have hchain : createChain
      { transactionId := transactionId, transactionType := .deposit,
        accountId := accountId, targetAccountId := none, amount := amount,
        status := .pending, approvedBy := none } userRole
      = (some true,
         Transaction.approve
           { transactionId := transactionId, transactionType := .deposit,
             accountId := accountId, targetAccountId := none, amount := amount,
             status := .pending, approvedBy := none } "System") := by
    rw [createChain_eq]
    exact if_pos h25
  have key : BankingFacadeDB.deposit bank transactionId accountId amount userRole
      = ⟨TransactionRepository.create bank
          { transactionId := transactionId, transactionType := .deposit,
            accountId := accountId, targetAccountId := none, amount := amount,
            status := .pending, approvedBy := none }, [],
         .ok (Transaction.approve
           { transactionId := transactionId, transactionType := .deposit,
             accountId := accountId, targetAccountId := none, amount := amount,
             status := .pending, approvedBy := none } "System")⟩ := by
    unfold BankingFacadeDB.deposit AccountRepository.get
    rw [hacct]
    simp [hchain, Account.deposit_nonpos acct amount hamt]
  rw [key]
  refine ⟨⟨Transaction.approve
      { transactionId := transactionId, transactionType := .deposit,
        accountId := accountId, targetAccountId := none, amount := amount,
        status := .pending, approvedBy := none } "System", rfl, rfl,
      by simp [Transaction.approve]⟩, ?_, ?_, rfl⟩
  · simp [Bank.balanceOf, TransactionRepository.create, hacct]
  · simp [Bank.statusOf, TransactionRepository.create, alookup]

/-- A store with one active funded account and no transactions. -/
def bankC6 : Bank :=
  { accounts := [("ACC_1", ⟨"ACC_1", "U1", 100, .active, false⟩)],
    transactions := [] }

/-- Witness for C6: a zero-amount deposit by a Customer returns normally
with the balance unchanged and the record still Pending. -/
theorem nonpositive_deposit_noop_witness :
    (∃ txn, (BankingFacadeDB.deposit bankC6 "TXN_1" "ACC_1" 0 .customer).result
        = .ok txn ∧ txn.status = .approved ∧ txn.status ≠ .completed) ∧
    Bank.balanceOf (BankingFacadeDB.deposit bankC6 "TXN_1" "ACC_1" 0 .customer).bank
      "ACC_1" = some 100 ∧
    Bank.statusOf (BankingFacadeDB.deposit bankC6 "TXN_1" "ACC_1" 0 .customer).bank
      "TXN_1" = some .pending ∧
    (BankingFacadeDB.deposit bankC6 "TXN_1" "ACC_1" 0 .customer).events = [] :=
  nonpositive_deposit_noop bankC6 "TXN_1" "ACC_1"
    ⟨"ACC_1", "U1", 100, .active, false⟩ 0 .customer rfl le_rfl

/-- A store with one frozen account owned by "U1" holding 100. -/
def bankC3 : Bank :=
  { accounts := [("ACC_1", ⟨"ACC_1", "U1", 100, .frozen, false⟩)],
    transactions := [] }

/-- The owner's 30000 withdrawal request against the frozen account. -/
def withdrawC3 : OpResult Bank Transaction :=
  BankingFacadeDB.withdraw bankC3 "TXN_1" "ACC_1" 30000 .customer (some "U1") none

/-- C3 counterexample: a Customer-owner's 30000 withdrawal against a Frozen
account does not fail with `FrozenAccountError` — the chain yields no
decision in the role tier, so the call returns normally with the
transaction still Pending and the balance untouched. -/
theorem frozen_withdraw_counterexample :
    withdrawC3.result
      = .ok { transactionId := "TXN_1", transactionType := .withdrawal,
              accountId := "ACC_1", targetAccountId := none, amount := 30000,
              status := .pending, approvedBy := none } ∧
    withdrawC3.result ≠ .error .frozenAccount ∧
    Bank.balanceOf withdrawC3.bank "ACC_1" = some 100 := by
  have h1 : withdrawC3.result
      = .ok { transactionId := "TXN_1", transactionType := .withdrawal,
              accountId := "ACC_1", targetAccountId := none, amount := 30000,
              status := .pending, approvedBy := none } := rfl
  refine ⟨h1, ?_, rfl⟩
  rw [h1]
  exact fun h => Except.noConfusion h

/-- C3 (amended): the frozen-state failure surfaces exactly on execution.
Whenever the chain decides positively for the acting role and amount, a
withdrawal from a Frozen account raises `FrozenAccountError`, the balance
is unchanged and the persisted record is marked Rejected; when the chain
yields no decision the request does not raise at all — the record simply
stays Pending, balance unchanged. A deposit to a Frozen account is never
blocked by the frozen state: a chain-approved positive deposit completes
and credits the balance by the amount, exactly as for an Active account. -/
theorem frozen_account_amended (bank : Bank) (transactionId accountId : String)
    (acct : Account) (amount : ℚ) (userRole : Role)
    (hacct : alookup bank.accounts accountId = some acct)
    (hfrozen : acct.state = .frozen) :
    (chainApproves amount userRole = true →
      (BankingFacadeDB.withdraw bank transactionId accountId amount userRole
         (some acct.ownerId) none).result = .error .frozenAccount ∧
      Bank.balanceOf (BankingFacadeDB.withdraw bank transactionId accountId amount
        userRole (some acct.ownerId) none).bank accountId = some acct.balance ∧
      Bank.statusOf (BankingFacadeDB.withdraw bank transactionId accountId amount
        userRole (some acct.ownerId) none).bank transactionId = some .rejected) ∧
    (chainApproves amount userRole = false →
      (∃ txn, (BankingFacadeDB.withdraw bank transactionId accountId amount userRole
         (some acct.ownerId) none).result = .ok txn ∧ txn.status = .pending) ∧
      Bank.balanceOf (BankingFacadeDB.withdraw bank transactionId accountId amount
        userRole (some acct.ownerId) none).bank accountId = some acct.balance ∧
      Bank.statusOf (BankingFacadeDB.withdraw bank transactionId accountId amount
        userRole (some acct.ownerId) none).bank transactionId = some .pending) ∧
    (chainApproves amount userRole = true → 0 < amount →
      (∃ txn, (BankingFacadeDB.deposit bank transactionId accountId amount
         userRole).result = .ok txn ∧ txn.status = .completed) ∧
      Bank.balanceOf (BankingFacadeDB.deposit bank transactionId accountId amount
        userRole).bank accountId = some (acct.balance + amount)) := by
  refine ⟨fun happ => ?_, fun hnapp => ?_, fun happ hpos => ?_⟩
  · obtain ⟨s, hchain⟩ := createChain_of_approves
      { transactionId := transactionId, transactionType := .withdrawal,
        accountId := accountId, targetAccountId := none, amount := amount,
        status := .pending, approvedBy := none } userRole happ
    have key : BankingFacadeDB.withdraw bank transactionId accountId amount userRole
        (some acct.ownerId) none
        = ⟨TransactionRepository.update_status
            (TransactionRepository.create bank
              { transactionId := transactionId, transactionType := .withdrawal,
                accountId := accountId, targetAccountId := none, amount := amount,
                status := .pending, approvedBy := none })
            transactionId .rejected none,
           [], .error .frozenAccount⟩ := by
      unfold BankingFacadeDB.withdraw AccountRepository.get effectiveUserId
      rw [hacct]
      simp [withdrawAuthFails_owner, hchain, Account.withdraw_frozen acct hfrozen amount]
    rw [key]
    refine ⟨rfl, ?_, ?_⟩
    · simp [Bank.balanceOf, TransactionRepository.update_status,
        TransactionRepository.create, hacct]
    · simp [Bank.statusOf, TransactionRepository.update_status,
        TransactionRepository.create, alookup_aupdate_self, alookup]
  · have hchain := createChain_of_not_approves
      { transactionId := transactionId, transactionType := .withdrawal,
        accountId := accountId, targetAccountId := none, amount := amount,
        status := .pending, approvedBy := none } userRole hnapp
    have key : BankingFacadeDB.withdraw bank transactionId accountId amount userRole
        (some acct.ownerId) none
        = ⟨TransactionRepository.create bank
            { transactionId := transactionId, transactionType := .withdrawal,
              accountId := accountId, targetAccountId := none, amount := amount,
              status := .pending, approvedBy := none },
           [],
           .ok { transactionId := transactionId, transactionType := .withdrawal,
                 accountId := accountId, targetAccountId := none, amount := amount,
                 status := .pending, approvedBy := none }⟩ := by
      unfold BankingFacadeDB.withdraw AccountRepository.get effectiveUserId
      rw [hacct]
      simp [withdrawAuthFails_owner, hchain]
    rw [key]
    refine ⟨⟨_, rfl, rfl⟩, ?_, ?_⟩
    · simp [Bank.balanceOf, TransactionRepository.create, hacct]
    · simp [Bank.statusOf, TransactionRepository.create, alookup]
  · obtain ⟨s, hchain⟩ := createChain_of_approves
      { transactionId := transactionId, transactionType := .deposit,
        accountId := accountId, targetAccountId := none, amount := amount,
        status := .pending, approvedBy := none } userRole happ
    have hs : stateAllowsDeposit acct.state = true := by rw [hfrozen]; rfl
    have key : BankingFacadeDB.deposit bank transactionId accountId amount userRole
        = ⟨TransactionRepository.update_status
            (AccountRepository.update_balance
              (TransactionRepository.create bank
                { transactionId := transactionId, transactionType := .deposit,
                  accountId := accountId, targetAccountId := none, amount := amount,
                  status := .pending, approvedBy := none })
              accountId (acct.balance + amount))
            transactionId .completed (some "System"),
           [.transactionCompleted transactionId,
            .balanceChanged accountId (acct.balance + amount)],
           .ok (Transaction.approve
              { transactionId := transactionId, transactionType := .deposit,
                accountId := accountId, targetAccountId := none, amount := amount,
                status := .pending, approvedBy := none } s).complete⟩ := by
      unfold BankingFacadeDB.deposit AccountRepository.get
      rw [hacct]
      simp [hchain, Account.deposit_allowed_pos acct hs amount hpos]
    rw [key]
    refine ⟨⟨_, rfl, rfl⟩, ?_⟩
    simp [Bank.balanceOf, TransactionRepository.update_status,
      AccountRepository.update_balance, TransactionRepository.create,
      alookup_aupdate_self, hacct]

/-- Witness for C3 (amended): on the concrete frozen account, an approved
(auto-tier) 10-unit withdrawal raises `FrozenAccountError` and rejects the
record; the Customer's 30000 withdrawal stays Pending; an approved 10-unit
deposit completes and credits the balance. -/
theorem frozen_account_amended_witness :
    ((BankingFacadeDB.withdraw bankC3 "TXN_1" "ACC_1" 10 .customer
        (some "U1") none).result = .error .frozenAccount ∧
     Bank.statusOf (BankingFacadeDB.withdraw bankC3 "TXN_1" "ACC_1" 10 .customer
        (some "U1") none).bank "TXN_1" = some .rejected) ∧
    Bank.statusOf (BankingFacadeDB.withdraw bankC3 "TXN_1" "ACC_1" 30000 .customer
        (some "U1") none).bank "TXN_1" = some .pending ∧
    Bank.balanceOf (BankingFacadeDB.deposit bankC3 "TXN_1" "ACC_1" 10
        .customer).bank "ACC_1" = some 110 := by
  have h1 := frozen_account_amended bankC3 "TXN_1" "ACC_1"
    ⟨"ACC_1", "U1", 100, .frozen, false⟩ 10 .customer rfl rfl
  have h2 := frozen_account_amended bankC3 "TXN_1" "ACC_1"
    ⟨"ACC_1", "U1", 100, .frozen, false⟩ 30000 .customer rfl rfl
  have ha : chainApproves 10 .customer = true := by
    unfold chainApproves
    norm_num
  have hn : chainApproves 30000 .customer = false := by
    unfold chainApproves
    norm_num
  refine ⟨⟨(h1.1 ha).1, (h1.1 ha).2.2⟩, (h2.2.1 hn).2.2, ?_⟩
  have h3 := (h1.2.2 ha (by norm_num)).2
  norm_num at h3
  exact h3

/-- A store with two active accounts: "ACC_A" (owner "U1", 100) and "ACC_B"
(owner "U2", 0). -/
def bankC8 : Bank :=
  { accounts := [("ACC_A", ⟨"ACC_A", "U1", 100, .active, false⟩),
                 ("ACC_B", ⟨"ACC_B", "U2", 0, .active, false⟩)],
    transactions := [] }

/-- A successful 50-unit transfer between the two active accounts. -/
def transferC8 : OpResult Bank Transaction :=
  BankingFacadeDB.transfer bankC8 "TXN_1" "ACC_A" "ACC_B" 50 .customer
    (some "U1") none

/-- C8 counterexample: a concrete successful transfer emits the
`TransactionCompleted` event first, then the two `BalanceChanged` events —
not the claimed order with completion last. -/
theorem transfer_event_order_counterexample :
    transferC8.events = [.transactionCompleted "TXN_1",
      .balanceChanged "ACC_A" 50, .balanceChanged "ACC_B" 50] ∧
    transferC8.events ≠ [.balanceChanged "ACC_A" 50,
      .balanceChanged "ACC_B" 50, .transactionCompleted "TXN_1"] := by
  have h1 : transferC8.events = [.transactionCompleted "TXN_1",
      .balanceChanged "ACC_A" (100 - 50), .balanceChanged "ACC_B" (0 + 50)] := rfl
  have h2 : transferC8.events = [.transactionCompleted "TXN_1",
      .balanceChanged "ACC_A" 50, .balanceChanged "ACC_B" 50] := by
    rw [h1]
    norm_num
  refine ⟨h2, ?_⟩
  rw [h2]
  decide

/-- C8 (amended): every successful transfer emits exactly two
`BalanceChanged` events and one `TransactionCompleted` event, in the order:
transaction completion first, then the source balance change, then the
target balance change; the transaction completes with the source debited
and the target credited by the amount. -/
theorem transfer_success_events (bank : Bank)
    (transactionId fromAccountId toAccountId : String) (fa ta : Account)
    (amount : ℚ) (userRole : Role)
    (hfa : alookup bank.accounts fromAccountId = some fa)
    (hta : alookup bank.accounts toAccountId = some ta)
    (hfstate : fa.state = .active) (htstate : ta.state = .active)
    (hpos : 0 < amount) (hbal : amount ≤ fa.balance)
    (happ : chainApproves amount userRole = true) :
    (BankingFacadeDB.transfer bank transactionId fromAccountId toAccountId
       amount userRole (some fa.ownerId) none).events
      = [.transactionCompleted transactionId,
         .balanceChanged fromAccountId (fa.balance - amount),
         .balanceChanged toAccountId (ta.balance + amount)] ∧
    (∃ txn, (BankingFacadeDB.transfer bank transactionId fromAccountId
       toAccountId amount userRole (some fa.ownerId) none).result = .ok txn ∧
       txn.status = .completed) := by
  obtain ⟨s, hchain⟩ := createChain_of_approves
    { transactionId := transactionId, transactionType := .transfer,
      accountId := fromAccountId, targetAccountId := some toAccountId,
      amount := amount, status := .pending, approvedBy := none } userRole happ
  have hts : stateAllowsDeposit ta.state = true := by rw [htstate]; rfl
  have key : BankingFacadeDB.transfer bank transactionId fromAccountId
      toAccountId amount userRole (some fa.ownerId) none
      = ⟨TransactionRepository.update_status
          (AccountRepository.update_balance
            (AccountRepository.update_balance
              (TransactionRepository.create bank
                { transactionId := transactionId, transactionType := .transfer,
                  accountId := fromAccountId, targetAccountId := some toAccountId,
                  amount := amount, status := .pending, approvedBy := none })
              fromAccountId (fa.balance - amount))
            toAccountId (ta.balance + amount))
          transactionId .completed (some "System"),
         [.transactionCompleted transactionId,
          .balanceChanged fromAccountId (fa.balance - amount),
          .balanceChanged toAccountId (ta.balance + amount)],
         .ok (Transaction.approve
            { transactionId := transactionId, transactionType := .transfer,
              accountId := fromAccountId, targetAccountId := some toAccountId,
              amount := amount, status := .pending, approvedBy := none }
            s).complete⟩ := by
    unfold BankingFacadeDB.transfer AccountRepository.get effectiveUserId
    rw [hfa, hta]
    simp [withdrawAuthFails_owner, hchain,
      Account.transfer_active_ok fa hfstate amount hpos hbal,
      Account.withdraw_active_ok fa hfstate amount hpos hbal,
      Account.deposit_allowed_pos ta hts amount hpos]
  rw [key]
  exact ⟨rfl, ⟨_, rfl, rfl⟩⟩

/-- Witness for C8 (amended): the concrete transfer of 50 from "ACC_A" (100)
to "ACC_B" (0) emits completion, then source change to 50, then target
change to 50. -/
theorem transfer_success_events_witness :
    transferC8.events = [.transactionCompleted "TXN_1",
      .balanceChanged "ACC_A" (100 - 50), .balanceChanged "ACC_B" (0 + 50)] ∧
    (∃ txn, transferC8.result = .ok txn ∧ txn.status = .completed) :=
  transfer_success_events bankC8 "TXN_1" "ACC_A" "ACC_B"
    ⟨"ACC_A", "U1", 100, .active, false⟩ ⟨"ACC_B", "U2", 0, .active, false⟩
    50 .customer rfl rfl rfl rfl (by norm_num) (by norm_num) (by decide)

/-- A store with an active funded source and a Closed target account. -/
def bankC2 : Bank :=
  { accounts := [("ACC_A", ⟨"ACC_A", "U1", 100, .active, false⟩),
                 ("ACC_B", ⟨"ACC_B", "U2", 0, .closed, true⟩)],
    transactions := [] }

/-- An approved (auto-tier) 50-unit transfer whose target is Closed. -/
def transferC2 : OpResult Bank Transaction :=
  BankingFacadeDB.transfer bankC2 "TXN_1" "ACC_A" "ACC_B" 50 .customer
    (some "U1") none

/-- C2 (code bug): on an approved transfer to a Closed account the source
leg executes but the target's `deposit` silently returns `False` and the
orchestrator discards that boolean: the source is debited to 50, the target
stays at 0, and the transaction is persisted and returned as Completed —
no rejection, no rollback, violating the transfer atomicity stated in the
orchestrator's own docstring. -/
theorem transfer_closed_target_partial_debit :
    Bank.balanceOf transferC2.bank "ACC_A" = some 50 ∧
    Bank.balanceOf transferC2.bank "ACC_B" = some 0 ∧
    Bank.statusOf transferC2.bank "TXN_1" = some .completed ∧
    transferC2.result
      = .ok { transactionId := "TXN_1", transactionType := .transfer,
              accountId := "ACC_A", targetAccountId := some "ACC_B",
              amount := 50, status := .completed,
              approvedBy := some "System" } := by
  have h1 : Bank.balanceOf transferC2.bank "ACC_A" = some (100 - 50) := rfl
  refine ⟨?_, rfl, rfl, rfl⟩
  rw [h1]
  norm_num

/-- Domain status of the transaction returned by an operation, when it
returned one (helper). -/
def resultStatus {σ : Type} (r : OpResult σ Transaction) :
    Option TransactionStatus :=
  match r.result with
  | .ok t => some t.status
  | .error _ => none

/-- A store with one active account "ACC_A" (owner "U1", balance 100). -/
def bankC4 : Bank :=
  { accounts := [("ACC_A", ⟨"ACC_A", "U1", 100, .active, false⟩)],
    transactions := [] }

/-- The owner's 50-unit withdrawal through the database facade. -/
def withdrawC4 : OpResult Bank Transaction :=
  BankingFacadeDB.withdraw bankC4 "TXN_1" "ACC_A" 50 .customer (some "U1") none

/-- C4 counterexample: in `BankingFacadeDB` (the facade the application
uses) the Customer-owner's 50-unit withdrawal from an Active 100-balance
account leaves the returned transaction in status Approved — not Completed
— while the balance does become 50 and the persisted record stays Pending. -/
theorem withdraw_status_counterexample :
    resultStatus withdrawC4 = some .approved ∧
    resultStatus withdrawC4 ≠ some .completed ∧
    Bank.balanceOf withdrawC4.bank "ACC_A" = some 50 ∧
    Bank.statusOf withdrawC4.bank "TXN_1" = some .pending := by
  have h1 : resultStatus withdrawC4 = some .approved := rfl
  have h2 : Bank.balanceOf withdrawC4.bank "ACC_A" = some (100 - 50) := rfl
  refine ⟨h1, ?_, ?_, rfl⟩
  · rw [h1]
    decide
  · rw [h2]
    norm_num

/-- The same store for the legacy in-memory facade, whose ownership check
reads the global current user. -/
def bankC4mem : Bank :=
  { accounts := [("ACC_A", ⟨"ACC_A", "U1", 100, .active, false⟩)],
    transactions := [], currentUserId := some "U1" }

/-- The owner's 50-unit withdrawal through the legacy in-memory facade. -/
def withdrawC4mem : OpResult Bank Transaction :=
  BankingFacade.withdraw bankC4mem "TXN_1" "ACC_A" 50 .customer

/-- C4 (amended): the 50-unit Customer-owner withdrawal from the Active
100-balance account executes and leaves the balance at 50 in both facades;
its final status is Completed only in the legacy in-memory `BankingFacade`
— the database facade the application uses returns it as Approved with the
persisted record still Pending. -/
theorem withdraw_scenario_amended :
    resultStatus withdrawC4 = some .approved ∧
    Bank.balanceOf withdrawC4.bank "ACC_A" = some 50 ∧
    Bank.statusOf withdrawC4.bank "TXN_1" = some .pending ∧
    resultStatus withdrawC4mem = some .completed ∧
    Bank.balanceOf withdrawC4mem.bank "ACC_A" = some 50 ∧
    Bank.statusOf withdrawC4mem.bank "TXN_1" = some .completed := by
  have h2 : Bank.balanceOf withdrawC4.bank "ACC_A" = some (100 - 50) := rfl
  have h3 : Bank.balanceOf withdrawC4mem.bank "ACC_A" = some (100 - 50) := rfl
  refine ⟨rfl, ?_, rfl, rfl, ?_, rfl⟩
  · rw [h2]
    norm_num
  · rw [h3]
    norm_num

/-- C10: the manual approval entry points guard only the two upper amount
bands (`> 75000` needs Admin, `> 25000` needs Employee/Admin); for a
Pending transaction of amount at most 25000 no role check runs at all, so
any role — a Customer included — can deny it (marking it Rejected, touching
no balance) or approve it without an `UnauthorizedAccessError`; approving a
positive-amount Pending deposit on an active account executes the balance
mutation and completes. -/
theorem small_amount_manual_no_role_check (bank : Bank) (transactionId : String)
    (txn : Transaction) (role : Role) (approverId : String)
    (hlook : alookup bank.transactions transactionId = some txn)
    (hpend : txn.status = .pending)
    (hamt : txn.amount ≤ 25000) :
    ((BankingFacadeDB.deny_transaction bank transactionId role approverId).result
       = .ok true ∧
     (BankingFacadeDB.deny_transaction bank transactionId role approverId).bank.accounts
       = bank.accounts ∧
     Bank.statusOf (BankingFacadeDB.deny_transaction bank transactionId role
       approverId).bank transactionId = some .rejected) ∧
    (BankingFacadeDB.approve_transaction bank transactionId role approverId).result
      ≠ .error .unauthorizedAccess ∧
    (∀ acct, txn.transactionType = .deposit →
      alookup bank.accounts txn.accountId = some acct →
      acct.state = .active → 0 < txn.amount →
      (BankingFacadeDB.approve_transaction bank transactionId role approverId).result
        = .ok true ∧
      Bank.balanceOf (BankingFacadeDB.approve_transaction bank transactionId role
        approverId).bank txn.accountId = some (acct.balance + txn.amount)) := by
  have hg1 : ¬(75000 < txn.amount ∧ role ≠ .admin) := by
    rintro ⟨h, -⟩
    exact absurd (le_trans hamt (by norm_num)) (not_le.mpr h)
  have hg2 : ¬(25000 < txn.amount ∧ ¬(role = .employee ∨ role = .admin)) := by
    rintro ⟨h, -⟩
    exact absurd hamt (not_le.mpr h)
  have hnp : ¬(txn.status ≠ .pending) := by simp [hpend]
  refine ⟨?_, ?_, ?_⟩
  · have key : BankingFacadeDB.deny_transaction bank transactionId role approverId
        = ⟨TransactionRepository.update_status bank transactionId .rejected
             (some approverId),
           [.transactionApproved transactionId], .ok true⟩ := by
      unfold BankingFacadeDB.deny_transaction
      rw [hlook]
      simp only []
      rw [if_neg hnp, if_neg hg1, if_neg hg2]
    rw [key]
    refine ⟨rfl, rfl, ?_⟩
    simp [Bank.statusOf, TransactionRepository.update_status,
      alookup_aupdate_self, hlook]
  · unfold BankingFacadeDB.approve_transaction AccountRepository.get
    rw [hlook]
    simp only []
    rw [if_neg hnp, if_neg hg1, if_neg hg2]
    cases halk : alookup bank.accounts txn.accountId with
    | none => simp
    | some account =>
      cases htype : txn.transactionType with
      | deposit => simp [htype]
      | withdrawal =>
        cases hw : Account.withdraw account txn.amount with
        | error e =>
          rcases Account.withdraw_error_kind account txn.amount e hw with he | he <;>
            simp [htype, hw, he]
        | ok p =>
          obtain ⟨b, a1⟩ := p
          simp [htype, hw]
      | transfer =>
        cases htgt : txn.targetAccountId with
        | none => simp [htype, htgt]
        | some tgtId =>
          cases htk : alookup bank.accounts tgtId with
          | none => simp [htype, htgt, htk]
          | some target =>
            cases hw : Account.withdraw account txn.amount with
            | error e =>
              rcases Account.withdraw_error_kind account txn.amount e hw with he | he <;>
                simp [htype, htgt, htk, hw, he]
            | ok p =>
              obtain ⟨b, a1⟩ := p
              simp [htype, htgt, htk, hw]
  · intro acct htype hacct hstate hpos
    have hs : stateAllowsDeposit acct.state = true := by rw [hstate]; rfl
    have key : BankingFacadeDB.approve_transaction bank transactionId role approverId
        = ⟨TransactionRepository.update_status
            (TransactionRepository.update_status
              (AccountRepository.update_balance bank txn.accountId
                (acct.balance + txn.amount))
              transactionId .approved (some approverId))
            transactionId .completed (some approverId),
           [.transactionApproved transactionId], .ok true⟩ := by
      unfold BankingFacadeDB.approve_transaction AccountRepository.get
      rw [hlook]
      simp only []
      rw [if_neg hnp, if_neg hg1, if_neg hg2]
      rw [hacct]
      simp [htype, Account.deposit_allowed_pos acct hs txn.amount hpos]
    rw [key]
    refine ⟨rfl, ?_⟩
    simp [Bank.balanceOf, TransactionRepository.update_status,
      AccountRepository.update_balance, alookup_aupdate_self, hacct]

/-- A store with an active account and a Pending 100-unit deposit awaiting
manual resolution. -/
def bankC10 : Bank :=
  { accounts := [("ACC_1", ⟨"ACC_1", "U1", 100, .active, false⟩)],
    transactions :=
      [("TXN_1",
        { transactionId := "TXN_1", transactionType := .deposit,
          accountId := "ACC_1", targetAccountId := none, amount := 100,
          status := .pending, approvedBy := none })] }

/-- Witness for C10: a Customer denies the concrete small pending deposit
successfully, and (independently) approves it successfully, executing the
deposit. -/
theorem small_amount_manual_no_role_check_witness :
    (BankingFacadeDB.deny_transaction bankC10 "TXN_1" .customer "U1").result
      = .ok true ∧
    (BankingFacadeDB.approve_transaction bankC10 "TXN_1" .customer "U1").result
      = .ok true ∧
    Bank.balanceOf (BankingFacadeDB.approve_transaction bankC10 "TXN_1" .customer
      "U1").bank "ACC_1" = some (100 + 100) := by
  have h := small_amount_manual_no_role_check bankC10 "TXN_1"
    { transactionId := "TXN_1", transactionType := .deposit, accountId := "ACC_1",
      targetAccountId := none, amount := 100, status := .pending,
      approvedBy := none }
    .customer "U1" rfl rfl (by norm_num)
  have h3 := h.2.2 ⟨"ACC_1", "U1", 100, .active, false⟩ rfl rfl rfl (by norm_num)
  exact ⟨h.1.1, h3.1, h3.2⟩

end Banking
